import Mathlib

set_option autoImplicit false

/-!
Verification of the update-engine orchestration core
(`isabella232/update_engine`), shallowly embedded in Lean 4.

The repository snapshot under scrutiny ships only the unit-test file
`update_attempter_unittest.cc`; the `UpdateAttempter` implementation it
tests (`update_attempter.cc`/`.h`) is not present.  The definitions
below are therefore modelled from the natural-language specification of
the orchestration core, anchored on the concrete expectations that the
unit tests pin down (exact action-type strings, exact error-code names,
exact status strings, and the initial field values asserted in
`UpdateAttempterTest::SetUp`).

Naming follows the C++ source: `GetErrorCodeForAction`,
`UpdateStatusToString`, `kActionCode...`, `UPDATE_STATUS_...`,
action-type strings `"OmahaRequestAction"`, etc.  The spec's
action-family vocabulary maps onto these as:
negotiation-request = `OmahaRequestAction`,
response-handling = `OmahaResponseHandlerAction`,
filesystem-copy = `FilesystemCopierAction`,
download = `DownloadAction`,
postinstall-run = `PostinstallRunnerAction`,
bootable-flag-set = `SetBootableFlagAction`.
-/

namespace UpdateEngine

/-- Modelled from the spec: the error-code taxonomy (§7).  Generic codes
`kActionCodeSuccess` and `kActionCodeError`, plus one specific code per
recognized action family, exactly the constants exercised by
`GetErrorCodeForActionTest`. -/
inductive ActionExitCode where
  | kActionCodeSuccess
  | kActionCodeError
  | kActionCodeOmahaRequestError
  | kActionCodeOmahaResponseHandlerError
  | kActionCodeFilesystemCopierError
  | kActionCodePostinstallRunnerError
  | kActionCodeSetBootableFlagError
  deriving DecidableEq, Repr

open ActionExitCode

/-- Modelled from the spec: `MapError` / `GetErrorCodeForAction` (§4.2),
whose implementation file is absent from the snapshot (only its test,
`GetErrorCodeForActionTest`, is).  An action is represented by its
`Type()` string tag; `none` stands for the C++ `NULL` action pointer.
If the code is the success sentinel it is returned unchanged; with no
action context the code is returned unchanged; otherwise dispatch on
the action's type string, with unrecognized types (e.g. `"ActionMock"`)
leaving the generic code unchanged. -/
def GetErrorCodeForAction (action : Option String) (code : ActionExitCode) :
    ActionExitCode :=
  if code = kActionCodeSuccess then code
  else
    match action with
    | none => code
    | some t =>
      if t = "OmahaRequestAction" then kActionCodeOmahaRequestError
      else if t = "OmahaResponseHandlerAction" then
        kActionCodeOmahaResponseHandlerError
      else if t = "FilesystemCopierAction" then kActionCodeFilesystemCopierError
      else if t = "PostinstallRunnerAction" then kActionCodePostinstallRunnerError
      else if t = "SetBootableFlagAction" then kActionCodeSetBootableFlagError
      else code

/-- The five action-type strings that `GetErrorCodeForAction` specializes. -/
def recognizedActionTypes : List String :=
  ["OmahaRequestAction", "OmahaResponseHandlerAction", "FilesystemCopierAction",
   "PostinstallRunnerAction", "SetBootableFlagAction"]

/-- The specific error code for each recognized action family (§4.2). -/
def specificErrorCode (t : String) : ActionExitCode :=
  if t = "OmahaRequestAction" then kActionCodeOmahaRequestError
  else if t = "OmahaResponseHandlerAction" then kActionCodeOmahaResponseHandlerError
  else if t = "FilesystemCopierAction" then kActionCodeFilesystemCopierError
  else if t = "PostinstallRunnerAction" then kActionCodePostinstallRunnerError
  else if t = "SetBootableFlagAction" then kActionCodeSetBootableFlagError
  else kActionCodeError

/-! The `UpdateStatus` enumeration, as in the C++ enum: consecutive
integer values starting at 0, in the declaration order pinned by
`UpdateStatusToStringTest`.  It is modelled as `Int` constants so that
out-of-enumeration inputs (the test casts `-1`) are expressible. -/

def UPDATE_STATUS_IDLE : Int := 0

def UPDATE_STATUS_CHECKING_FOR_UPDATE : Int := 1

def UPDATE_STATUS_UPDATE_AVAILABLE : Int := 2

def UPDATE_STATUS_DOWNLOADING : Int := 3

def UPDATE_STATUS_VERIFYING : Int := 4

def UPDATE_STATUS_FINALIZING : Int := 5

def UPDATE_STATUS_UPDATED_NEED_REBOOT : Int := 6

def UPDATE_STATUS_REPORTING_ERROR_EVENT : Int := 7

/-- Modelled from the spec: `UpdateStatusToString` (§4.3), whose
implementation file is absent (only `UpdateStatusToStringTest` is).
Returns the literal symbolic name of each enumerated status and the
fixed fallback `"unknown status"` for any other input. -/
def UpdateStatusToString (status : Int) : String :=
  if status = UPDATE_STATUS_IDLE then "UPDATE_STATUS_IDLE"
  else if status = UPDATE_STATUS_CHECKING_FOR_UPDATE then
    "UPDATE_STATUS_CHECKING_FOR_UPDATE"
  else if status = UPDATE_STATUS_UPDATE_AVAILABLE then
    "UPDATE_STATUS_UPDATE_AVAILABLE"
  else if status = UPDATE_STATUS_DOWNLOADING then "UPDATE_STATUS_DOWNLOADING"
  else if status = UPDATE_STATUS_VERIFYING then "UPDATE_STATUS_VERIFYING"
  else if status = UPDATE_STATUS_FINALIZING then "UPDATE_STATUS_FINALIZING"
  else if status = UPDATE_STATUS_UPDATED_NEED_REBOOT then
    "UPDATE_STATUS_UPDATED_NEED_REBOOT"
  else if status = UPDATE_STATUS_REPORTING_ERROR_EVENT then
    "UPDATE_STATUS_REPORTING_ERROR_EVENT"
  else "unknown status"

/-- One Action object of a built chain: its stable type tag plus a
unique construction identity (modelling C++ object identity, so that
"the very same object, not a copy" is expressible). -/
structure ChainAction where
  id : Nat
  type : String
  deriving DecidableEq, Repr

/-- Modelled from the spec: the fixed 11-step chain shape built by
`UpdateAttempter::Update` (§4.3), in the order pinned by `UpdateTest`. -/
def updateChainTypes : List String :=
  ["OmahaRequestAction", "OmahaResponseHandlerAction", "FilesystemCopierAction",
   "FilesystemCopierAction", "OmahaRequestAction", "DownloadAction",
   "OmahaRequestAction", "PostinstallRunnerAction", "SetBootableFlagAction",
   "PostinstallRunnerAction", "OmahaRequestAction"]

/-- Modelled from the spec: the combined state of the Update Attempter,
its Action Processor, and the on-disk completion marker.  Attempter
fields keep their C++ member names (`status`, `http_response_code`,
`download_progress`, `new_version`, `new_size`, `last_checked_time`,
`actions`, `response_handler_action`).  `marker` is the existence bit of
the persisted completion marker file; `pos` is the processor's index of
the currently running chain Action (`none` when idle); `reporting` holds
the error code of a currently running reporting Action; bookkeeping
fields record observable history: `enqueued` logs `EnqueueAction` calls,
`start_processing_calls` counts `StartProcessing` calls, `started_count`
counts chain Actions ever started in the current attempt,
`reporting_runs` logs completed reporting Actions and their codes,
`writes_this_attempt` / `marker_written_this_attempt` record marker
writes by the current attempt, and `newer_since_write` records whether a
newer attempt has started since the marker was last written. -/
structure MachineState where
  status : Int
  http_response_code : Int
  download_progress : ℚ
  new_version : String
  new_size : Nat
  last_checked_time : Int
  actions : List ChainAction
  response_handler_action : Option ChainAction
  marker : Bool
  pos : Option Nat
  reporting : Option ActionExitCode
  started_count : Nat
  enqueued : List String
  start_processing_calls : Nat
  reporting_runs : List ActionExitCode
  writes_this_attempt : Nat
  marker_written_this_attempt : Bool
  newer_since_write : Bool
  next_id : Nat
  deriving DecidableEq, Repr

/-- Modelled from the spec: construction of the Update Attempter (§4.3).
The initial status is `UPDATED_NEED_REBOOT` when the persisted
completion marker file exists and `IDLE` otherwise; construction is the
one place the marker is read.  The remaining initial field values are
exactly those asserted by `UpdateAttempterTest::SetUp`
(`http_response_code_ == 0`, `download_progress_ == 0.0`,
`last_checked_time_ == 0`, `new_version_ == "0.0.0.0"`,
`new_size_ == 0`). -/
def construct (marker_on_disk : Bool) : MachineState :=
  { status := if marker_on_disk then UPDATE_STATUS_UPDATED_NEED_REBOOT
              else UPDATE_STATUS_IDLE
    http_response_code := 0
    download_progress := 0
    new_version := "0.0.0.0"
    new_size := 0
    last_checked_time := 0
    actions := []
    response_handler_action := none
    marker := marker_on_disk
    pos := none
    reporting := none
    started_count := 0
    enqueued := []
    start_processing_calls := 0
    reporting_runs := []
    writes_this_attempt := 0
    marker_written_this_attempt := false
    newer_since_write := false
    next_id := 0 }

/-- The attempter is busy while a chain Action or a reporting Action is
in flight; `Update` rejects re-entry in that case (§4.3). -/
def MachineState.busy (s : MachineState) : Bool :=
  s.pos.isSome || s.reporting.isSome

/-- Events driving the machine: the external `Update(appVersion, omahaUrl)`
entry point, completion of the currently running chain Action with a
code, completion of the in-flight reporting Action, and the external
`set_http_response_code` setter used by the tests. -/
inductive Event where
  | update
  | complete (code : ActionExitCode)
  | reportDone
  | setHttpResponseCode (code : Int)

/-- Modelled from the spec: the illustrative status policy at chain
boundaries (§4.3), applied when chain Action `completedIdx` has just
succeeded and the next Action starts: completion of response-handling
(index 1) gives `UPDATE_AVAILABLE`; start of download (index 5) gives
`DOWNLOADING`; completion of download gives `VERIFYING`; start of the
postinstall/bootable-flag sequence (index 7) gives `FINALIZING`. -/
def statusAfterBoundary (cur : Int) (completedIdx : Nat) : Int :=
  if completedIdx = 1 then UPDATE_STATUS_UPDATE_AVAILABLE
  else if completedIdx = 4 then UPDATE_STATUS_DOWNLOADING
  else if completedIdx = 5 then UPDATE_STATUS_VERIFYING
  else if completedIdx = 6 then UPDATE_STATUS_FINALIZING
  else cur

/-- Modelled from the spec: one transition of the orchestration core
(§4.1, §4.3).  `Event.update`: if busy, a no-op (re-entry rejected);
otherwise reset `http_response_code` to 0, build the fresh 11-Action
chain with fresh object identities, retain the Action at position 1 as
`response_handler_action`, enqueue all 11 on the processor, call
`StartProcessing` (which starts Action 0), and move to
`CHECKING_FOR_UPDATE`.  `Event.complete code` on running Action `i`:
on success the processor starts Action `i+1`, or, when `i` was last,
the attempter writes the persisted marker and moves to
`UPDATED_NEED_REBOOT`; on failure the processor stops (no further chain
Action ever starts) and the attempter maps the code through
`GetErrorCodeForAction` for a single reporting Action, holding
`REPORTING_ERROR_EVENT` while it runs.  `Event.reportDone`: the
reporting Action finishes and the attempter returns to `IDLE`. -/
def step (s : MachineState) : Event → MachineState
  | Event.update =>
    if s.busy then s
    else
      let acts := (List.range updateChainTypes.length).map
        (fun j => ChainAction.mk (s.next_id + j) (updateChainTypes.getD j ""))
      { s with
        http_response_code := 0
        status := UPDATE_STATUS_CHECKING_FOR_UPDATE
        actions := acts
        response_handler_action := acts.get? 1
        pos := some 0
        started_count := 1
        enqueued := s.enqueued ++ updateChainTypes
        start_processing_calls := s.start_processing_calls + 1
        reporting_runs := []
        writes_this_attempt := 0
        marker_written_this_attempt := false
        newer_since_write := true
        next_id := s.next_id + updateChainTypes.length }
  | Event.complete code =>
    match s.pos with
    | none => s
    | some i =>
      if code = kActionCodeSuccess then
        if i + 1 < s.actions.length then
          { s with
            pos := some (i + 1)
            started_count := s.started_count + 1
            status := statusAfterBoundary s.status i }
        else
          { s with
            pos := none
            marker := true
            writes_this_attempt := s.writes_this_attempt + 1
            marker_written_this_attempt := true
            newer_since_write := false
            status := UPDATE_STATUS_UPDATED_NEED_REBOOT }
      else
        let mapped := GetErrorCodeForAction ((s.actions.get? i).map ChainAction.type) code
        { s with
          pos := none
          status := UPDATE_STATUS_REPORTING_ERROR_EVENT
          reporting := some mapped }
  | Event.reportDone =>
    match s.reporting with
    | none => s
    | some c =>
      { s with
        reporting := none
        reporting_runs := s.reporting_runs ++ [c]
        status := UPDATE_STATUS_IDLE }
  | Event.setHttpResponseCode c => { s with http_response_code := c }

/-- Running a sequence of events from a state. -/
def steps (s : MachineState) (es : List Event) : MachineState :=
  es.foldl step s

/-- The states reachable from construction (with either initial marker
state) under any sequence of events. -/
inductive Reachable : MachineState → Prop
  | construction (m : Bool) : Reachable (construct m)
  | tail (s : MachineState) (e : Event) : Reachable s → Reachable (step s e)

/-! ## The inductive invariant of the marker file -/

/-- The inductive invariant carried through every transition: (1) when no
newer attempt has started since the marker was last written, the marker
file exists exactly when the status is `UPDATED_NEED_REBOOT`; (2) the
current attempt has written the marker at most once; (3) while a chain
or reporting Action is in flight, a newer attempt has started since the
last write and this attempt has not yet written; (4) a chain Action and
a reporting Action are never in flight at the same time. -/
def Inv (s : MachineState) : Prop :=
  (s.newer_since_write = false →
    (s.marker = true ↔ s.status = UPDATE_STATUS_UPDATED_NEED_REBOOT)) ∧
  s.writes_this_attempt ≤ 1 ∧
  ((s.pos.isSome || s.reporting.isSome) = true →
    (s.newer_since_write = true ∧ s.writes_this_attempt = 0)) ∧
  (s.pos.isSome = true → s.reporting = none)

theorem inv_construct (m : Bool) : Inv (construct m) := by
  cases m <;>
    exact ⟨fun _ => by decide, by decide, fun hx => by revert hx; decide,
      fun hx => by revert hx; decide⟩

theorem inv_step (s : MachineState) (e : Event) (hs : Inv s) : Inv (step s e) := by
  obtain ⟨h1, h2, h3, h4⟩ := hs
  cases e with
  | update =>
    cases hb : s.busy with
    | true =>
      have hid : step s Event.update = s := by simp [step, hb]
      rw [hid]; exact ⟨h1, h2, h3, h4⟩
    | false =>
      have hrep : s.reporting = none := by
        have := hb
        simp only [MachineState.busy, Bool.or_eq_false_iff] at this
        exact Option.not_isSome_iff_eq_none.mp (by simp [this.2])
      simp [Inv, step, hb, hrep]
  | complete code =>
    cases hp : s.pos with
    | none =>
      have hid : step s (Event.complete code) = s := by simp [step, hp]
      rw [hid]; exact ⟨h1, h2, h3, h4⟩
    | some i =>
      have h3' : s.newer_since_write = true ∧ s.writes_this_attempt = 0 :=
        h3 (by simp [hp])
      have h4' : s.reporting = none := h4 (by simp [hp])
      by_cases hc : code = kActionCodeSuccess
      · by_cases hlen : i + 1 < s.actions.length
        · simp [Inv, step, hp, hc, hlen, h3'.1, h3'.2, h4']
        · simp [Inv, step, hp, hc, hlen, h3'.2, h4']
      · simp [Inv, step, hp, hc, h3'.1, h3'.2]
  | reportDone =>
    cases hr : s.reporting with
    | none =>
      have hid : step s Event.reportDone = s := by simp [step, hr]
      rw [hid]; exact ⟨h1, h2, h3, h4⟩
    | some c =>
      have hpos : s.pos = none := by
        cases hp : s.pos with
        | none => rfl
        | some i => exact absurd (h4 (by simp [hp])) (by simp [hr])
      have hnew : s.newer_since_write = true := (h3 (by simp [hr])).1
      simp [Inv, step, hr, hpos, hnew, h2]
  | setHttpResponseCode c => exact ⟨h1, h2, h3, h4⟩

theorem reachable_inv (s : MachineState) (h : Reachable s) : Inv s := by
  induction h with
  | construction m => exact inv_construct m
  | tail s e _ ih => exact inv_step s e ih

theorem reachable_steps {s : MachineState} (es : List Event) (h : Reachable s) :
    Reachable (steps s es) := by
  induction es generalizing s with
  | nil => exact h
  | cons e es ih => exact ih (Reachable.tail s e h)

/-! ## Claim theorems -/

/-- Claim C1: the error-code mapper is pure and total.  For every
generic code, `GetErrorCodeForAction` with no action context (`none`,
the C++ `NULL`) returns the code unchanged; for every action type,
success is returned unchanged; each of the five recognized action
families maps the generic error to its specific code
(negotiation-request to `kActionCodeOmahaRequestError`, response-handling
to `kActionCodeOmahaResponseHandlerError`, filesystem-copy to
`kActionCodeFilesystemCopierError`, postinstall-run to
`kActionCodePostinstallRunnerError`, bootable-flag-set to
`kActionCodeSetBootableFlagError`); and any unrecognized action type
leaves the generic error code unchanged. -/
theorem getErrorCodeForAction_pure_total :
    (∀ c : ActionExitCode, GetErrorCodeForAction none c = c) ∧
    (∀ t : String,
      GetErrorCodeForAction (some t) kActionCodeSuccess = kActionCodeSuccess) ∧
    GetErrorCodeForAction (some "OmahaRequestAction") kActionCodeError
      = kActionCodeOmahaRequestError ∧
    GetErrorCodeForAction (some "OmahaResponseHandlerAction") kActionCodeError
      = kActionCodeOmahaResponseHandlerError ∧
    GetErrorCodeForAction (some "FilesystemCopierAction") kActionCodeError
      = kActionCodeFilesystemCopierError ∧
    GetErrorCodeForAction (some "PostinstallRunnerAction") kActionCodeError
      = kActionCodePostinstallRunnerError ∧
    GetErrorCodeForAction (some "SetBootableFlagAction") kActionCodeError
      = kActionCodeSetBootableFlagError ∧
    (∀ t : String, t ∉ recognizedActionTypes →
      GetErrorCodeForAction (some t) kActionCodeError = kActionCodeError) := by
  refine ⟨fun c => ?_, fun t => rfl, by decide, by decide, by decide, by decide,
    by decide, fun t ht => ?_⟩
  · cases c <;> rfl
  · simp only [recognizedActionTypes, List.mem_cons, List.not_mem_nil, or_false,
      not_or] at ht
    obtain ⟨e1, e2, e3, e4, e5⟩ := ht
    simp [GetErrorCodeForAction, e1, e2, e3, e4, e5]

/-- Witness for C1 at a concrete unrecognized action type, the
`"ActionMock"` used by `GetErrorCodeForActionTest`. -/
theorem getErrorCodeForAction_pure_total_witness :
    "ActionMock" ∉ recognizedActionTypes ∧
    GetErrorCodeForAction (some "ActionMock") kActionCodeError
      = kActionCodeError :=
  ⟨by decide,
   getErrorCodeForAction_pure_total.2.2.2.2.2.2.2 "ActionMock" (by decide)⟩

/-- Claim C2: constructing the Update Attempter with the persisted
completion marker file present yields initial status
`UPDATE_STATUS_UPDATED_NEED_REBOOT`; constructing it with the marker
absent yields initial status `UPDATE_STATUS_IDLE`. -/
theorem construct_initial_status :
    (construct true).status = UPDATE_STATUS_UPDATED_NEED_REBOOT ∧
    (construct false).status = UPDATE_STATUS_IDLE := by
  exact ⟨rfl, rfl⟩

/-- Claim C3: `Update` on a freshly constructed attempter (either
initial marker state) enqueues on the Action Processor exactly the
11-action chain, in the fixed order negotiation-request,
response-handling, filesystem-copy, filesystem-copy,
negotiation-request, download, negotiation-request, postinstall-run,
bootable-flag-set, postinstall-run, negotiation-request (as C++ action
type tags), and calls `StartProcessing` exactly once. -/
theorem update_enqueues_eleven_action_chain (m : Bool) :
    (step (construct m) Event.update).enqueued =
      ["OmahaRequestAction", "OmahaResponseHandlerAction",
       "FilesystemCopierAction", "FilesystemCopierAction",
       "OmahaRequestAction", "DownloadAction", "OmahaRequestAction",
       "PostinstallRunnerAction", "SetBootableFlagAction",
       "PostinstallRunnerAction", "OmahaRequestAction"] ∧
    (step (construct m) Event.update).start_processing_calls = 1 ∧
    (step (construct m) Event.update).actions.map ChainAction.type =
      (step (construct m) Event.update).enqueued := by
  cases m <;> decide

/-- Claim C4: when all 11 chain Actions complete successfully, the
persisted marker file exists, it was written by this attempt, and the
attempter's status is `UPDATE_STATUS_UPDATED_NEED_REBOOT`. -/
theorem chain_success_writes_marker_and_needs_reboot (m : Bool) :
    (steps (step (construct m) Event.update)
      (List.replicate 11 (Event.complete kActionCodeSuccess))).marker = true ∧
    (steps (step (construct m) Event.update)
      (List.replicate 11 (Event.complete kActionCodeSuccess))).marker_written_this_attempt
      = true ∧
    (steps (step (construct m) Event.update)
      (List.replicate 11 (Event.complete kActionCodeSuccess))).status
      = UPDATE_STATUS_UPDATED_NEED_REBOOT := by
  cases m <;> decide

/-- Claim C5: if the chain Action at 0-based position `i` (1-based
position `k = i + 1`) fails with any non-success code, then no later
chain Action is ever started (exactly `i + 1` chain Actions were
started), exactly one reporting Action runs and it carries the code
produced by the error mapper for the failing Action's type, the final
status is `UPDATE_STATUS_IDLE`, and this attempt did not create the
marker file (the file's existence is unchanged from before the
attempt). -/
theorem action_failure_stops_chain_reports_and_idles (m : Bool) (i : Nat)
    (c : ActionExitCode) (hi : i < 11) (hc : c ≠ kActionCodeSuccess) :
    (steps (step (construct m) Event.update)
      (List.replicate i (Event.complete kActionCodeSuccess) ++
        [Event.complete c, Event.reportDone])).started_count = i + 1 ∧
    (steps (step (construct m) Event.update)
      (List.replicate i (Event.complete kActionCodeSuccess) ++
        [Event.complete c, Event.reportDone])).reporting_runs
      = [GetErrorCodeForAction (some (updateChainTypes.getD i "")) c] ∧
    (steps (step (construct m) Event.update)
      (List.replicate i (Event.complete kActionCodeSuccess) ++
        [Event.complete c, Event.reportDone])).status = UPDATE_STATUS_IDLE ∧
    (steps (step (construct m) Event.update)
      (List.replicate i (Event.complete kActionCodeSuccess) ++
        [Event.complete c, Event.reportDone])).marker_written_this_attempt
      = false ∧
    (steps (step (construct m) Event.update)
      (List.replicate i (Event.complete kActionCodeSuccess) ++
        [Event.complete c, Event.reportDone])).marker = m := by
  cases m <;> interval_cases i <;> cases c <;>
    first
      | exact absurd rfl hc
      | decide

/-- Witness for C5: a failure of the very first Action
(negotiation-request, 0-based position 0) with the generic error code,
starting from a marker-free construction. -/
theorem action_failure_stops_chain_witness :
    (0 : Nat) < 11 ∧ kActionCodeError ≠ kActionCodeSuccess ∧
    ((steps (step (construct false) Event.update)
      (List.replicate 0 (Event.complete kActionCodeSuccess) ++
        [Event.complete kActionCodeError, Event.reportDone])).started_count
      = 0 + 1 ∧
    (steps (step (construct false) Event.update)
      (List.replicate 0 (Event.complete kActionCodeSuccess) ++
        [Event.complete kActionCodeError, Event.reportDone])).reporting_runs
      = [GetErrorCodeForAction (some (updateChainTypes.getD 0 ""))
          kActionCodeError] ∧
    (steps (step (construct false) Event.update)
      (List.replicate 0 (Event.complete kActionCodeSuccess) ++
        [Event.complete kActionCodeError, Event.reportDone])).status
      = UPDATE_STATUS_IDLE ∧
    (steps (step (construct false) Event.update)
      (List.replicate 0 (Event.complete kActionCodeSuccess) ++
        [Event.complete kActionCodeError, Event.reportDone])).marker_written_this_attempt
      = false ∧
    (steps (step (construct false) Event.update)
      (List.replicate 0 (Event.complete kActionCodeSuccess) ++
        [Event.complete kActionCodeError, Event.reportDone])).marker = false) :=
  ⟨by decide, by decide,
   action_failure_stops_chain_reports_and_idles false 0 kActionCodeError
     (by decide) (by decide)⟩

/-- Claim C6: immediately after `Update` starts a chain, the status is
`UPDATE_STATUS_CHECKING_FOR_UPDATE` and `http_response_code` has been
reset to the neutral 0, whatever value `h` a previous attempt left in
`http_response_code`. -/
theorem update_resets_http_response_code (m : Bool) (h : Int) :
    (step (step (construct m) (Event.setHttpResponseCode h))
      Event.update).status = UPDATE_STATUS_CHECKING_FOR_UPDATE ∧
    (step (step (construct m) (Event.setHttpResponseCode h))
      Event.update).http_response_code = 0 := by
  cases m <;> exact ⟨rfl, rfl⟩

/-- Claim C7: `UpdateStatusToString` returns the exact symbolic literal
for each of the eight enumerated status values and the fixed string
`"unknown status"` for every integer outside the enumeration. -/
theorem updateStatusToString_exact :
    UpdateStatusToString UPDATE_STATUS_IDLE = "UPDATE_STATUS_IDLE" ∧
    UpdateStatusToString UPDATE_STATUS_CHECKING_FOR_UPDATE
      = "UPDATE_STATUS_CHECKING_FOR_UPDATE" ∧
    UpdateStatusToString UPDATE_STATUS_UPDATE_AVAILABLE
      = "UPDATE_STATUS_UPDATE_AVAILABLE" ∧
    UpdateStatusToString UPDATE_STATUS_DOWNLOADING
      = "UPDATE_STATUS_DOWNLOADING" ∧
    UpdateStatusToString UPDATE_STATUS_VERIFYING
      = "UPDATE_STATUS_VERIFYING" ∧
    UpdateStatusToString UPDATE_STATUS_FINALIZING
      = "UPDATE_STATUS_FINALIZING" ∧
    UpdateStatusToString UPDATE_STATUS_UPDATED_NEED_REBOOT
      = "UPDATE_STATUS_UPDATED_NEED_REBOOT" ∧
    UpdateStatusToString UPDATE_STATUS_REPORTING_ERROR_EVENT
      = "UPDATE_STATUS_REPORTING_ERROR_EVENT" ∧
    (∀ s : Int, s < UPDATE_STATUS_IDLE ∨ UPDATE_STATUS_REPORTING_ERROR_EVENT < s →
      UpdateStatusToString s = "unknown status") := by
  refine ⟨rfl, rfl, rfl, rfl, rfl, rfl, rfl, rfl, fun s hs => ?_⟩
  simp only [UPDATE_STATUS_IDLE, UPDATE_STATUS_REPORTING_ERROR_EVENT] at hs
  have e0 : s ≠ 0 := by omega
  have e1 : s ≠ 1 := by omega
  have e2 : s ≠ 2 := by omega
  have e3 : s ≠ 3 := by omega
  have e4 : s ≠ 4 := by omega
  have e5 : s ≠ 5 := by omega
  have e6 : s ≠ 6 := by omega
  have e7 : s ≠ 7 := by omega
  simp [UpdateStatusToString, UPDATE_STATUS_IDLE,
    UPDATE_STATUS_CHECKING_FOR_UPDATE, UPDATE_STATUS_UPDATE_AVAILABLE,
    UPDATE_STATUS_DOWNLOADING, UPDATE_STATUS_VERIFYING,
    UPDATE_STATUS_FINALIZING, UPDATE_STATUS_UPDATED_NEED_REBOOT,
    UPDATE_STATUS_REPORTING_ERROR_EVENT, e0, e1, e2, e3, e4, e5, e6, e7]

/-- Witness for C7 at the out-of-enumeration input `-1`, the value used
by `UpdateStatusToStringTest`. -/
theorem updateStatusToString_exact_witness :
    ((-1 : Int) < UPDATE_STATUS_IDLE ∨
      UPDATE_STATUS_REPORTING_ERROR_EVENT < (-1 : Int)) ∧
    UpdateStatusToString (-1) = "unknown status" :=
  ⟨Or.inl (by decide),
   updateStatusToString_exact.2.2.2.2.2.2.2.2 (-1) (Or.inl (by decide))⟩

/-- Counterexample to claim C8 as stated: a reachable state in which the
strict biconditional "marker exists iff (status is UpdatedNeedReboot and
no newer attempt has started since the marker was written)" fails.  The
concrete run constructs with no marker, completes a full successful
attempt (which writes the marker and reaches `UPDATED_NEED_REBOOT`),
then starts a second attempt with `Update`: the marker still exists, yet
the status is `CHECKING_FOR_UPDATE` and a newer attempt has started. -/
theorem marker_iff_counterexample :
    Reachable (steps (construct false)
      (Event.update :: (List.replicate 11 (Event.complete kActionCodeSuccess)
        ++ [Event.update]))) ∧
    ¬((steps (construct false)
        (Event.update :: (List.replicate 11 (Event.complete kActionCodeSuccess)
          ++ [Event.update]))).marker = true ↔
      ((steps (construct false)
        (Event.update :: (List.replicate 11 (Event.complete kActionCodeSuccess)
          ++ [Event.update]))).status = UPDATE_STATUS_UPDATED_NEED_REBOOT ∧
       (steps (construct false)
        (Event.update :: (List.replicate 11 (Event.complete kActionCodeSuccess)
          ++ [Event.update]))).newer_since_write = false)) :=
  ⟨reachable_steps _ (Reachable.construction false), by decide⟩

/-- Claim C8, amended: at every reachable point of execution, *provided
no newer attempt has started since the marker was last written*, the
persisted marker file exists if and only if the status is
`UPDATE_STATUS_UPDATED_NEED_REBOOT`; and the marker is written at most
once per attempt (only at successful chain completion; once a newer
attempt has started, the marker's continued existence records the prior
success, not the current status). -/
theorem marker_invariant_amended (s : MachineState) (h : Reachable s) :
    (s.newer_since_write = false →
      (s.marker = true ↔ s.status = UPDATE_STATUS_UPDATED_NEED_REBOOT)) ∧
    s.writes_this_attempt ≤ 1 :=
  ⟨(reachable_inv s h).1, (reachable_inv s h).2.1⟩

/-- Witness for the amended C8 at the concrete constructed-with-marker
state. -/
theorem marker_invariant_amended_witness :
    ((construct true).newer_since_write = false →
      ((construct true).marker = true ↔
        (construct true).status = UPDATE_STATUS_UPDATED_NEED_REBOOT)) ∧
    (construct true).writes_this_attempt ≤ 1 :=
  marker_invariant_amended (construct true) (Reachable.construction true)

/-- Claim C9: after `Update` builds the chain, the Action object the
attempter retains as `response_handler_action` is identically the
Action at chain position 1 (0-based) — the same object identity, not a
copy: the chain's Action identities are pairwise distinct, and the
retained identity is the one at position 1, whose type is
`"OmahaResponseHandlerAction"`. -/
theorem response_handler_retained_identically (m : Bool) :
    (step (construct m) Event.update).response_handler_action =
      (step (construct m) Event.update).actions.get? 1 ∧
    ((step (construct m) Event.update).actions.get? 1).map ChainAction.type
      = some "OmahaResponseHandlerAction" ∧
    ((step (construct m) Event.update).actions.map ChainAction.id).Nodup := by
  cases m <;> decide

/-- Counterexample to claim C10 as stated: the freshly constructed
attempter's `new_version` is not the literal string
`"unknown version"` (it is the sentinel `"0.0.0.0"` that
`UpdateAttempterTest::SetUp` asserts). -/
theorem new_version_sentinel_counterexample :
    ¬((construct false).new_version = "unknown version") := by
  decide

/-- Claim C10, amended: for a freshly constructed attempter (either
initial marker state), before any negotiation completes, `new_version`
is the unknown-version sentinel `"0.0.0.0"` (not the literal string
`"unknown version"`), `new_size` is 0, `download_progress` is 0.0, and
`last_checked_time` is 0. -/
theorem fresh_attempter_metadata_defaults (m : Bool) :
    (construct m).new_version = "0.0.0.0" ∧
    (construct m).new_size = 0 ∧
    (construct m).download_progress = 0 ∧
    (construct m).last_checked_time = 0 := by
  cases m <;> exact ⟨rfl, rfl, rfl, rfl⟩

end UpdateEngine
